import Mathlib

/-!
Shallow embedding of the zoom-to-youtube pipeline core
(`video_tracker.py`, `gallery_identifier.py`, `zoom_client.py`,
`video_manager.py`, `main.py`) and proofs about it.

Conventions of the embedding:
* A CSV row is a `Record` of strings, exactly the `CSV_HEADERS` columns.
* The ledger is a `List Record` in file order; the Python code finds the
  first row with a matching uuid and mutates it in place, which is
  `replaceFirst` here; a fresh row is appended at the end.
* `datetime.now().isoformat()` is an opaque non-deterministic string,
  passed in as a `now` parameter.
* The filesystem is a predicate `String → Bool` (`Path.exists`), and for
  the retention sweep a list of present files plus a list of present
  directories with a `parentOf` path function.
* Collaborator calls (Zoom download, YouTube upload, Discord webhook) are
  modelled by their outcome, passed in through `Env`, and every actual
  invocation is logged as an `Event` so that "which collaborators ran"
  is observable.
-/

namespace ZoomToYouTube

/-- One row of the CSV tracking database: the `CSV_HEADERS` columns of
`video_tracker.py`, all stored as strings as in the CSV file. -/
structure Record where
  zoom_uuid : String
  meeting_topic : String
  start_time : String
  file_path : String
  zoom_downloaded_at : String
  youtube_uploaded_at : String
  youtube_url : String
  discord_notified_at : String
  status : String
  error_message : String
  failure_count : String
  error_notified_at : String
  last_notified_error : String
deriving Repr, DecidableEq

/-- The row `{header: '' for header in CSV_HEADERS}` built by
`record_download` / `record_error` before filling in fields. -/
def emptyRecord : Record :=
  { zoom_uuid := "", meeting_topic := "", start_time := "", file_path := ""
  , zoom_downloaded_at := "", youtube_uploaded_at := "", youtube_url := ""
  , discord_notified_at := "", status := "", error_message := ""
  , failure_count := "", error_notified_at := "", last_notified_error := "" }

/-- ASCII lowercasing, Python's `str.lower` as used on the Zoom
`recording_type` tags (`String.toLower`, restated over the character
list so that proofs can evaluate it). -/
def pyLower (s : String) : String := ⟨s.data.map Char.toLower⟩

/-- Decimal digit run: `none` as soon as a non-digit appears. -/
def parseDigits : List Char → Nat → Option Nat
  | [], acc => some acc
  | c :: cs, acc =>
    if c.isDigit then parseDigits cs (acc * 10 + (c.toNat - 48)) else none

/-- Python `int(s)` on decimal strings (optional sign then digits);
`none` models the `ValueError` (`String.toInt?`, restated over the
character list so that proofs can evaluate it). -/
def pyToInt? (s : String) : Option Int :=
  match s.data with
  | [] => none
  | '-' :: cs =>
    match cs with
    | [] => none
    | _ => (parseDigits cs 0).map (fun n => -(n : Int))
  | '+' :: cs =>
    match cs with
    | [] => none
    | _ => (parseDigits cs 0).map (fun n => (n : Int))
  | cs => (parseDigits cs 0).map (fun n => (n : Int))

/-- Python `int(s or '0')` returning `none` on a parse error
(the `ValueError` branch of the `try` blocks in `video_tracker.py`). -/
def parsePyInt (s : String) : Option Int :=
  pyToInt? (if s = "" then "0" else s)

/-- `record_error`'s failure-count read: parse errors fall back to 0. -/
def pyIntOr0 (s : String) : Int :=
  (parsePyInt s).getD 0

/-- The `had_failures` computation shared by `record_download`,
`record_upload` and `record_notification`: on a parse error the
`except: pass` leaves `had_failures = False`. -/
def hadFailures (threshold : Int) (failure_count : String) : Bool :=
  match parsePyInt failure_count with
  | some fc => decide (fc ≥ threshold)
  | none => false

/-- `VideoTracker.get_record`: first row with the given uuid. -/
def get_record (records : List Record) (zoom_uuid : String) : Option Record :=
  records.find? (fun r => r.zoom_uuid == zoom_uuid)

/-- `VideoTracker.is_processed`: the first row with the given uuid must
have all three of `zoom_downloaded_at`, `youtube_uploaded_at`,
`discord_notified_at` non-empty (Python truthiness of the strings). -/
def is_processed (records : List Record) (zoom_uuid : String) : Bool :=
  match records.find? (fun r => r.zoom_uuid == zoom_uuid) with
  | some record =>
      record.zoom_downloaded_at != "" &&
      record.youtube_uploaded_at != "" &&
      record.discord_notified_at != ""
  | none => false

/-- In-place mutation of the first row with the given uuid, as done by the
`for r in records: if r['zoom_uuid'] == zoom_uuid: ...` loops followed by
`_write_all_records(records)`. -/
def replaceFirst (records : List Record) (zoom_uuid : String) (r' : Record) :
    List Record :=
  match records with
  | [] => []
  | r :: rest =>
      if r.zoom_uuid == zoom_uuid then r' :: rest
      else r :: replaceFirst rest zoom_uuid r'

/-- `VideoTracker.record_download`. Returns the new ledger and the
`had_failures` flag. -/
def record_download (threshold : Int) (now : String) (records : List Record)
    (zoom_uuid meeting_topic start_time file_path : String) :
    List Record × Bool :=
  match get_record records zoom_uuid with
  | some record =>
      let had_failures := hadFailures threshold record.failure_count
      let record' := { record with
        file_path := file_path
        zoom_downloaded_at := now
        status := "downloaded"
        error_message := ""
        failure_count := "0"
        error_notified_at := ""
        last_notified_error := "" }
      (replaceFirst records zoom_uuid record', had_failures)
  | none =>
      let record := { emptyRecord with
        zoom_uuid := zoom_uuid
        meeting_topic := meeting_topic
        start_time := start_time
        failure_count := "0" }
      let had_failures := hadFailures threshold record.failure_count
      let record' := { record with
        file_path := file_path
        zoom_downloaded_at := now
        status := "downloaded"
        error_message := ""
        failure_count := "0"
        error_notified_at := ""
        last_notified_error := "" }
      (records ++ [record'], had_failures)

/-- `VideoTracker.record_upload`. On an unknown uuid the Python code only
logs a warning and returns `False`; no row is created. -/
def record_upload (threshold : Int) (now : String) (records : List Record)
    (zoom_uuid youtube_url : String) : List Record × Bool :=
  match get_record records zoom_uuid with
  | some record =>
      let had_failures := hadFailures threshold record.failure_count
      let record' := { record with
        youtube_uploaded_at := now
        youtube_url := youtube_url
        status := "uploaded"
        error_message := ""
        failure_count := "0"
        error_notified_at := ""
        last_notified_error := "" }
      (replaceFirst records zoom_uuid record', had_failures)
  | none => (records, false)

/-- `VideoTracker.record_notification`. On an unknown uuid the Python code
only logs a warning and returns `False`; no row is created. -/
def record_notification (threshold : Int) (now : String)
    (records : List Record) (zoom_uuid : String) : List Record × Bool :=
  match get_record records zoom_uuid with
  | some record =>
      let had_failures := hadFailures threshold record.failure_count
      let record' := { record with
        discord_notified_at := now
        status := "notified"
        error_message := ""
        failure_count := "0"
        error_notified_at := ""
        last_notified_error := "" }
      (replaceFirst records zoom_uuid record', had_failures)
  | none => (records, false)

/-- `VideoTracker.record_error`. Finds or creates the row, increments the
failure count, stamps status/message, and returns the `should_notify`
flag; when notifying it also stamps `error_notified_at` and
`last_notified_error`. -/
def record_error (threshold : Int) (now : String) (records : List Record)
    (zoom_uuid error_message status : String) : List Record × Bool :=
  let found := get_record records zoom_uuid
  let base :=
    match found with
    | some r => r
    | none => { emptyRecord with zoom_uuid := zoom_uuid, failure_count := "0" }
  let failure_count := pyIntOr0 base.failure_count + 1
  let should_notify :=
    decide (failure_count ≥ threshold) &&
    (error_message != base.last_notified_error)
  let record' := { base with
    status := status
    error_message := error_message
    failure_count := toString failure_count
    error_notified_at := if should_notify then now else base.error_notified_at
    last_notified_error :=
      if should_notify then error_message else base.last_notified_error }
  match found with
  | some _ => (replaceFirst records zoom_uuid record', should_notify)
  | none => (records ++ [record'], should_notify)

/-- `VideoTracker.get_records_for_retry`. The filesystem is the predicate
`fsExists` (`Path.exists`). The `continue` of the Python loop is the
`false` branch of the file-existence check. -/
def get_records_for_retry (fsExists : String → Bool)
    (records : List Record) : List Record :=
  records.filter (fun record =>
    let status := record.status
    let file_path := record.file_path
    let needs_retry :=
      if status == "failed" then true
      else if record.zoom_downloaded_at != "" &&
              record.youtube_uploaded_at == "" then true
      else if record.youtube_uploaded_at != "" &&
              record.discord_notified_at == "" then true
      else false
    if needs_retry && file_path != "" then
      if !(fsExists file_path) then false else needs_retry
    else needs_retry)

/-- One entry of a recording's `recording_files` list, restricted to the
fields the core reads. `recording_start` / `recording_end` hold the parsed
timestamp in seconds, `none` standing for a missing, empty or unparseable
value (all of which make `get_recording_duration_seconds` fall through
to 0). -/
structure RecordingFile where
  recording_type : String
  download_url : String
  recording_start : Option Int
  recording_end : Option Int
deriving Repr, DecidableEq

/-- A recording object from the Zoom API, restricted to the fields the
core reads. `duration` is `recording.get('duration', 0)`, in minutes. -/
structure Recording where
  uuid : String
  topic : String
  start_time : String
  duration : Int
  recording_files : List RecordingFile
deriving Repr, DecidableEq

/-- `gallery_identifier.find_best_gallery_view_file`: four sequential
first-match scans, in the source's order. -/
def find_best_gallery_view_file (recording_files : List RecordingFile) :
    Option RecordingFile :=
  match recording_files.find?
      (fun f => pyLower f.recording_type == "shared_screen_with_gallery_view") with
  | some file => some file
  | none =>
    match recording_files.find?
        (fun f => pyLower f.recording_type == "gallery_view") with
    | some file => some file
    | none =>
      match recording_files.find?
          (fun f => pyLower f.recording_type == "active_speaker") with
      | some file => some file
      | none =>
        match recording_files.find?
            (fun f => pyLower f.recording_type == "shared_screen_with_speaker_view") with
        | some file => some file
        | none => none

/-- `zoom_client.find_best_video` just delegates to the gallery
identifier. -/
def find_best_video (recording_files : List RecordingFile) :
    Option RecordingFile :=
  find_best_gallery_view_file recording_files

/-- `zoom_client.get_recording_duration_seconds`: recording duration in
minutes when positive, else the difference of the video file's parsed
timestamps, else 0. -/
def get_recording_duration_seconds (recording : Recording)
    (video_file : Option RecordingFile) : Int :=
  if recording.duration > 0 then recording.duration * 60
  else
    match video_file with
    | some vf =>
      match vf.recording_start, vf.recording_end with
      | some file_start, some file_end => file_end - file_start
      | _, _ => 0
    | none => 0

/-- An invocation of an external collaborator during
`main.process_recording`: the three pipeline collaborators plus the two
Discord meta-alerts (`_send_error_notification`,
`_send_success_notification`). -/
inductive Event where
  | download (path : String)
  | upload (path : String)
  | notify (url : String)
  | alertError (message : String)
  | alertResolved (operation : String)
deriving Repr, DecidableEq

/-- Is the event one of the three pipeline collaborators (Downloader,
Uploader, Notifier), as opposed to a meta-alert? -/
def Event.isCollaborator : Event → Bool
  | .download _ => true
  | .upload _ => true
  | .notify _ => true
  | _ => false

/-- The ambient configuration and external world of one
`process_recording` call: config values, the wall clock, the filesystem,
the folder name computed by `generate_folder_name` (datetime/locale
dependent), and the outcomes of the three collaborator calls.
`Except.error e` stands for the Python exception with `str(e) = e`. -/
structure Env where
  threshold : Int
  min_video_length : Int
  download_dir : String
  now : String
  folder_name : String
  fsExists : String → Bool
  downloadResult : Except String Unit
  uploadResult : Except String String
  notifyResult : Except String Bool

/-- The destination path computed by `main.process_recording`:
`config.DOWNLOAD_DIR / folder_name / f"{video_type}.mp4"`. -/
def recording_file_path (env : Env) (best_video : RecordingFile) : String :=
  env.download_dir ++ "/" ++ env.folder_name ++ "/" ++
    (best_video.recording_type ++ ".mp4")

/-- Step 1 of `main.process_recording` (download). Returns the emitted
events, the new ledger, whether the step `return`ed early, and the
filesystem after the step (a successful download creates the file). -/
def download_step (env : Env) (best_video : RecordingFile)
    (existing_record : Option Record)
    (zoom_uuid meeting_topic start_time file_path : String)
    (records : List Record) (dry_run : Bool) :
    List Event × List Record × Bool × (String → Bool) :=
  let needs_download :=
    match existing_record with
    | none => true
    | some r => r.zoom_downloaded_at == ""
  if needs_download then
    if dry_run then ([], records, false, env.fsExists)
    else
      if best_video.download_url == "" then
        -- `raise ValueError("No download URL in video file")`, caught below
        let msg := "Download failed: No download URL in video file"
        let (records', should) :=
          record_error env.threshold env.now records zoom_uuid msg "failed"
        ((if should then [.alertError msg] else []), records', true, env.fsExists)
      else
        match env.downloadResult with
        | .ok _ =>
            let (records', had) := record_download env.threshold env.now
              records zoom_uuid meeting_topic start_time file_path
            ([.download file_path] ++
               (if had then [.alertResolved "Download"] else []),
             records', false, fun p => p == file_path || env.fsExists p)
        | .error e =>
            let msg := "Download failed: " ++ e
            let (records', should) :=
              record_error env.threshold env.now records zoom_uuid msg "failed"
            ([.download file_path] ++
               (if should then [.alertError msg] else []),
             records', true, env.fsExists)
  else
    -- already downloaded; re-download only if the file is missing
    if !(env.fsExists file_path) then
      if best_video.download_url != "" then
        match env.downloadResult with
        | .ok _ =>
            let (records', had) := record_download env.threshold env.now
              records zoom_uuid meeting_topic start_time file_path
            ([.download file_path] ++
               (if had then [.alertResolved "Download (retry)"] else []),
             records', false, fun p => p == file_path || env.fsExists p)
        | .error e =>
            let msg := "Retry download failed: " ++ e
            let (records', should) :=
              record_error env.threshold env.now records zoom_uuid msg "failed"
            ([.download file_path] ++
               (if should then [.alertError msg] else []),
             records', true, env.fsExists)
      else ([], records, false, env.fsExists)
    else ([], records, false, env.fsExists)

/-- Step 2 of `main.process_recording` (upload). `fsExists` is the
filesystem after step 1. -/
def upload_step (env : Env) (existing_record : Option Record)
    (zoom_uuid file_path : String) (fsExists : String → Bool)
    (records : List Record) (dry_run : Bool) :
    List Event × List Record × Bool :=
  let needs_upload :=
    match existing_record with
    | none => true
    | some r => r.youtube_uploaded_at == ""
  if needs_upload then
    if dry_run then ([], records, false)
    else
      if !(fsExists file_path) then
        -- `raise FileNotFoundError(f"Video file not found: {file_path}")`
        let msg := "Upload failed: Video file not found: " ++ file_path
        let (records', should) :=
          record_error env.threshold env.now records zoom_uuid msg "failed"
        ((if should then [.alertError msg] else []), records', true)
      else
        match env.uploadResult with
        | .ok youtube_url =>
            let (records', had) := record_upload env.threshold env.now
              records zoom_uuid youtube_url
            ([.upload file_path] ++
               (if had then [.alertResolved "Upload"] else []),
             records', false)
        | .error e =>
            let msg := "Upload failed: " ++ e
            let (records', should) :=
              record_error env.threshold env.now records zoom_uuid msg "failed"
            ([.upload file_path] ++
               (if should then [.alertError msg] else []),
             records', true)
  else ([], records, false)

/-- Step 3 of `main.process_recording` (Discord notification). The record
is re-read from the ledger first (`tracker.get_record` refresh). -/
def notify_step (env : Env) (zoom_uuid : String)
    (records : List Record) (dry_run : Bool) :
    List Event × List Record :=
  let existing_record := get_record records zoom_uuid
  let youtube_url :=
    match existing_record with
    | some r => r.youtube_url
    | none => ""
  let needs_notify :=
    match existing_record with
    | none => true
    | some r => r.discord_notified_at == ""
  if needs_notify then
    if youtube_url == "" then ([], records)
    else if dry_run then ([], records)
    else
      match env.notifyResult with
      | .ok true =>
          let (records', had) :=
            record_notification env.threshold env.now records zoom_uuid
          ([.notify youtube_url] ++
             (if had then [.alertResolved "Discord notification"] else []),
           records')
      | .ok false =>
          let msg := "Discord notification failed"
          let (records', should) :=
            record_error env.threshold env.now records zoom_uuid msg "failed"
          ([.notify youtube_url] ++
             (if should then [.alertError msg] else []),
           records')
      | .error e =>
          let msg := "Discord notification failed: " ++ e
          let (records', should) :=
            record_error env.threshold env.now records zoom_uuid msg "failed"
          ([.notify youtube_url] ++
             (if should then [.alertError msg] else []),
           records')
  else ([], records)

/-- `main.process_recording`: guards, stream selection, duration gate,
then the three steps. Returns the collaborator invocations in order and
the final ledger. -/
def process_recording (env : Env) (recording : Recording)
    (records : List Record) (dry_run : Bool) :
    List Event × List Record :=
  let zoom_uuid := recording.uuid
  let meeting_topic := recording.topic
  let start_time := recording.start_time
  if zoom_uuid == "" then ([], records)
  else if is_processed records zoom_uuid then ([], records)
  else
    let existing_record := get_record records zoom_uuid
    if recording.recording_files.isEmpty then
      let msg := "No recording files found"
      let (records', should) :=
        record_error env.threshold env.now records zoom_uuid msg "failed"
      ((if should then [.alertError msg] else []), records')
    else
      match find_best_video recording.recording_files with
      | none =>
        let msg := "No suitable video file found"
        let (records', should) :=
          record_error env.threshold env.now records zoom_uuid msg "failed"
        ((if should then [.alertError msg] else []), records')
      | some best_video =>
        let duration_seconds :=
          get_recording_duration_seconds recording (some best_video)
        if env.min_video_length > 0 &&
            duration_seconds < env.min_video_length then
          let msg := "Video too short: " ++ toString duration_seconds ++ "s"
          let (records', should) :=
            record_error env.threshold env.now records zoom_uuid msg "failed"
          ((if should then [.alertError msg] else []), records')
        else
          let file_path := recording_file_path env best_video
          let (ev1, records1, abort1, fs1) := download_step env best_video
            existing_record zoom_uuid meeting_topic start_time file_path
            records dry_run
          if abort1 then (ev1, records1)
          else
            let (ev2, records2, abort2) := upload_step env existing_record
              zoom_uuid file_path fs1 records1 dry_run
            if abort2 then (ev1 ++ ev2, records2)
            else
              let (ev3, records3) := notify_step env zoom_uuid records2 dry_run
              (ev1 ++ ev2 ++ ev3, records3)

/-- The external world of `video_manager.cleanup_old_videos`: timestamp
parsing (`datetime.fromisoformat`, in seconds since epoch, `none` on a
`ValueError`), the path-to-parent-directory function (`Path.parent`),
and the current time in seconds. -/
structure CleanupEnv where
  parseTs : String → Option Int
  parentOf : String → String
  now : Int

/-- The mutable state of the retention sweep: the running
`deleted_count`, the files present on disk, and the directories present
on disk. -/
structure CleanupState where
  deleted_count : Nat
  files : List String
  dirs : List String
deriving Repr, DecidableEq

/-- The body of the `for record in records` loop of
`cleanup_old_videos`: skip on empty or unparseable `zoom_downloaded_at`
or a date at/after the cutoff, else unlink the file if present and
remove the parent directory if it became empty. -/
def cleanup_record (env : CleanupEnv) (cutoff : Int) (st : CleanupState)
    (record : Record) : CleanupState :=
  if record.zoom_downloaded_at == "" then st
  else
    match env.parseTs record.zoom_downloaded_at with
    | none => st
    | some downloaded_at =>
      if downloaded_at < cutoff then
        if record.file_path != "" then
          if st.files.contains record.file_path then
            let files' := st.files.erase record.file_path
            let parent_dir := env.parentOf record.file_path
            let dirs' :=
              if st.dirs.contains parent_dir &&
                 !(files'.any (fun f => env.parentOf f == parent_dir)) then
                st.dirs.erase parent_dir
              else st.dirs
            { deleted_count := st.deleted_count + 1
              files := files', dirs := dirs' }
          else st
        else st
      else st

/-- `video_manager.cleanup_old_videos`: cutoff is
`datetime.now() - timedelta(days=retention_days)`; the ledger rows are
read (`get_all_records`) and returned untouched — the function never
writes the tracker. -/
def cleanup_old_videos (env : CleanupEnv) (retention_days : Int)
    (records : List Record) (files dirs : List String) :
    CleanupState × List Record :=
  let cutoff := env.now - retention_days * 86400
  (records.foldl (cleanup_record env cutoff)
    { deleted_count := 0, files := files, dirs := dirs }, records)

/-! ### Definitions written from the spec's words, for comparison -/

/-- Generic tiered selection, following the spec's words for the Stream
Selector: scan the tiers in priority order and return the first stream
(in list order) of the first tier that matches; `none` if no tier
matches. -/
def selectInTierOrder : List String → List RecordingFile →
    Option RecordingFile
  | [], _ => none
  | t :: ts, recording_files =>
    match recording_files.find? (fun f => pyLower f.recording_type == t) with
    | some file => some file
    | none => selectInTierOrder ts recording_files

/-- The tier order exactly as claim C2 states it: primary-composite >
primary-simple > speaker-view-composite > speaker-view-simple. -/
def claimedTierOrder : List String :=
  ["shared_screen_with_gallery_view", "gallery_view",
   "shared_screen_with_speaker_view", "active_speaker"]

/-- The tier order the code actually implements: the two fallback tiers
are swapped relative to the claim (`active_speaker` is scanned before
`shared_screen_with_speaker_view`). -/
def amendedTierOrder : List String :=
  ["shared_screen_with_gallery_view", "gallery_view",
   "active_speaker", "shared_screen_with_speaker_view"]

/-- Does the stream's type tag match any of the four selector tiers? -/
def matchesAnyTier (f : RecordingFile) : Bool :=
  pyLower f.recording_type == "shared_screen_with_gallery_view" ||
  pyLower f.recording_type == "gallery_view" ||
  pyLower f.recording_type == "active_speaker" ||
  pyLower f.recording_type == "shared_screen_with_speaker_view"

/-- The Retry Sweep selection predicate exactly as claim C6 states it:
(failed, or downloaded-not-uploaded, or uploaded-not-notified) and
(no local path, or the file still exists). -/
def retryableClaimPred (fsExists : String → Bool) (r : Record) : Bool :=
  ((r.status == "failed") ||
   (r.zoom_downloaded_at != "" && r.youtube_uploaded_at == "") ||
   (r.youtube_uploaded_at != "" && r.discord_notified_at == "")) &&
  ((r.file_path == "") || fsExists r.file_path)

/-- Claim C7's retention criterion: `downloaded_at` non-empty and older
than the cutoff (its parsed timestamp is before `now - retention`). -/
def cleanupQualifies (env : CleanupEnv) (cutoff : Int) (r : Record) : Bool :=
  (r.zoom_downloaded_at != "") &&
  (match env.parseTs r.zoom_downloaded_at with
   | some t => decide (t < cutoff)
   | none => false)

/-- Is the path `p` the artifact of some record the retention sweep
qualifies for deletion? -/
def deletedBy (env : CleanupEnv) (cutoff : Int) (records : List Record)
    (p : String) : Bool :=
  records.any (fun r => cleanupQualifies env cutoff r && r.file_path == p)

/-- Claim C7's directory-removal criterion: the sweep removes a
directory exactly when some deleted artifact lay in it and no file
with that parent remains after the pass. -/
def dirRemovedBy (env : CleanupEnv) (cutoff : Int) (records : List Record)
    (files : List String) (d : String) : Bool :=
  (files.any (fun p =>
      deletedBy env cutoff records p && env.parentOf p == d)) &&
  !((files.filter (fun p => !(deletedBy env cutoff records p))).any
      (fun f => env.parentOf f == d))

/-! ### Concrete fixtures used by witnesses and counterexamples -/

/-- A fully processed row: all three step timestamps set. -/
def wComplete : Record :=
  { emptyRecord with
    zoom_uuid := "u1", meeting_topic := "Standup"
    file_path := "dl/f/video.mp4"
    zoom_downloaded_at := "t1", youtube_uploaded_at := "t2"
    youtube_url := "https://y/v1", discord_notified_at := "t3"
    status := "notified", failure_count := "0" }

/-- A row in a failed state with error bookkeeping populated. -/
def wFailed : Record :=
  { emptyRecord with
    zoom_uuid := "u1", status := "failed"
    error_message := "boom", failure_count := "4"
    error_notified_at := "t4", last_notified_error := "boom" }

/-- A row that is downloaded but not yet uploaded. -/
def wDownloaded : Record :=
  { emptyRecord with
    zoom_uuid := "u1", zoom_downloaded_at := "t1"
    file_path := "dl/f/shared_screen_with_gallery_view.mp4"
    status := "downloaded", failure_count := "0" }

/-- A row that is downloaded and uploaded but has an empty
`youtube_url` and is not yet notified. -/
def wUploadedNoUrl : Record :=
  { emptyRecord with
    zoom_uuid := "u1", zoom_downloaded_at := "t1"
    file_path := "dl/f/shared_screen_with_gallery_view.mp4"
    youtube_uploaded_at := "t2", youtube_url := ""
    status := "uploaded", failure_count := "0" }

/-- A gallery-view stream fixture. -/
def wStream : RecordingFile :=
  { recording_type := "shared_screen_with_gallery_view"
  , download_url := "https://zoom/dl/r1"
  , recording_start := some 0, recording_end := some 300 }

/-- A recording fixture: one composite-primary stream, 5 minutes. -/
def wRecording : Recording :=
  { uuid := "u1", topic := "Standup", start_time := "2024-01-01T10:00:00Z"
  , duration := 5, recording_files := [wStream] }

/-- A 30-second gallery-view stream fixture. -/
def wShortStream : RecordingFile :=
  { wStream with recording_start := some 0, recording_end := some 30 }

/-- A short recording fixture: 0 minutes metadata duration, 30 seconds
of stream timestamps. -/
def wShortRecording : Recording :=
  { uuid := "u1", topic := "Standup", start_time := "2024-01-01T10:00:00Z"
  , duration := 0, recording_files := [wShortStream] }

/-- An environment fixture: threshold 3, minimum length 60 s, the
computed artifact present on disk, all collaborators succeeding. -/
def wEnv : Env :=
  { threshold := 3, min_video_length := 60, download_dir := "dl"
  , now := "t9", folder_name := "f"
  , fsExists := fun p => p == "dl/f/shared_screen_with_gallery_view.mp4"
  , downloadResult := .ok ()
  , uploadResult := .ok "https://y/v1"
  , notifyResult := .ok true }

/-- A retention-sweep environment fixture: timestamps are plain integer
strings, `"f11"` lives in directory `"D11"` and every other path in
`"D9"`, `now` is second 2000000. -/
def wCleanupEnv : CleanupEnv :=
  { parseTs := pyToInt?
  , parentOf := fun p => if p == "f11" then "D11" else "D9"
  , now := 2000000 }

/-- A row downloaded 11 days before `wCleanupEnv.now`. -/
def wOld11 : Record :=
  { emptyRecord with
    zoom_uuid := "u11", zoom_downloaded_at := toString (2000000 - 11 * 86400)
    file_path := "f11", status := "downloaded" }

/-- A row downloaded 9 days before `wCleanupEnv.now`. -/
def wNew9 : Record :=
  { emptyRecord with
    zoom_uuid := "u9", zoom_downloaded_at := toString (2000000 - 9 * 86400)
    file_path := "f9", status := "downloaded" }

/-- Streams used by the selector theorems. -/
def wSpeakerComposite : RecordingFile :=
  ⟨"shared_screen_with_speaker_view", "", none, none⟩

/-- The simple speaker-view stream fixture. -/
def wSpeakerSimple : RecordingFile := ⟨"active_speaker", "", none, none⟩

/-- The composite-primary stream fixture. -/
def wGalleryComposite : RecordingFile :=
  ⟨"shared_screen_with_gallery_view", "", none, none⟩

/-- The audio-only stream fixture. -/
def wAudioOnly : RecordingFile := ⟨"audio_only", "", none, none⟩

/-- The row written by a successful `record_upload` on an existing
record. -/
def upload_success_row (r : Record) (now youtube_url : String) : Record :=
  { r with
    youtube_uploaded_at := now
    youtube_url := youtube_url
    status := "uploaded"
    error_message := ""
    failure_count := "0"
    error_notified_at := ""
    last_notified_error := "" }

/-! ### Helper lemmas about the ledger -/

theorem any_congr_mem {l : List String} {f g : String → Bool}
    (h : ∀ x ∈ l, f x = g x) : l.any f = l.any g := by
  induction l with
  | nil => rfl
  | cons x xs ih =>
    rw [List.any_cons, List.any_cons, h x (List.mem_cons_self x xs),
      ih (fun y hy => h y (List.mem_cons_of_mem x hy))]

theorem get_record_beq {records : List Record} {zoom_uuid : String}
    {r : Record} (h : get_record records zoom_uuid = some r) :
    (r.zoom_uuid == zoom_uuid) = true := by
  unfold get_record at h
  exact List.find?_some
    (p := fun r : Record => r.zoom_uuid == zoom_uuid) h

theorem get_record_replaceFirst (records : List Record) (zoom_uuid : String)
    (r' : Record) (hmem : (get_record records zoom_uuid).isSome)
    (h' : (r'.zoom_uuid == zoom_uuid) = true) :
    get_record (replaceFirst records zoom_uuid r') zoom_uuid = some r' := by
  induction records with
  | nil => simp [get_record] at hmem
  | cons r rest ih =>
    unfold replaceFirst
    by_cases hr : (r.zoom_uuid == zoom_uuid) = true
    · rw [if_pos hr]
      exact List.find?_cons_of_pos _ h'
    · rw [if_neg hr]
      have hmem' : (get_record rest zoom_uuid).isSome := by
        unfold get_record at hmem
        rwa [List.find?_cons_of_neg
          (p := fun r : Record => r.zoom_uuid == zoom_uuid) _ hr] at hmem
      have hrec := ih hmem'
      unfold get_record at hrec ⊢
      rw [List.find?_cons_of_neg
        (p := fun r : Record => r.zoom_uuid == zoom_uuid) _ hr]
      exact hrec

theorem get_record_append_of_none (records : List Record)
    (zoom_uuid : String) (r' : Record)
    (h : get_record records zoom_uuid = none)
    (h' : (r'.zoom_uuid == zoom_uuid) = true) :
    get_record (records ++ [r']) zoom_uuid = some r' := by
  unfold get_record at h ⊢
  rw [List.find?_append, h, Option.none_or]
  exact List.find?_cons_of_pos _ h'

/-- C1: processing an already-complete record (all three step timestamps
non-empty in the ledger) is a no-op — `process_recording` performs no
collaborator invocation and returns the ledger unchanged. -/
theorem process_recording_complete_noop
    (env : Env) (recording : Recording) (records : List Record)
    (dry_run : Bool) (r : Record)
    (huuid : recording.uuid ≠ "")
    (hfind : get_record records recording.uuid = some r)
    (hd : r.zoom_downloaded_at ≠ "") (hu : r.youtube_uploaded_at ≠ "")
    (hn : r.discord_notified_at ≠ "") :
    process_recording env recording records dry_run = ([], records) := by
  have h1 : (recording.uuid == "") = false := by
    simpa using huuid
  have h2 : is_processed records recording.uuid = true := by
    unfold is_processed
    unfold get_record at hfind
    rw [hfind]
    simp [hd, hu, hn]
  unfold process_recording
  simp [h1, h2]

/-- Witness for C1 at a concrete complete record. -/
theorem process_recording_complete_noop_witness :
    wRecording.uuid ≠ "" ∧
    get_record [wComplete] wRecording.uuid = some wComplete ∧
    process_recording wEnv wRecording [wComplete] false = ([], [wComplete]) :=
  ⟨by decide, by decide,
   process_recording_complete_noop wEnv wRecording [wComplete] false
     wComplete (by decide) (by decide) (by decide) (by decide) (by decide)⟩

/-- C2 counterexample: on `[speaker-view-composite, speaker-view-simple]`
the code returns the simple speaker view, while the claimed tier order
(composite fallback above simple fallback) would return the composite
one. -/
theorem find_best_video_claimed_order_counterexample :
    find_best_video [wSpeakerComposite, wSpeakerSimple] =
        some wSpeakerSimple ∧
    selectInTierOrder claimedTierOrder [wSpeakerComposite, wSpeakerSimple] =
        some wSpeakerComposite ∧
    wSpeakerSimple ≠ wSpeakerComposite := by decide

/-- C2 amended: the Selector returns the first stream (in list order) of
the highest-priority matching tier, with the fixed tier order
primary-composite > primary-simple > fallback speaker-view-SIMPLE
(`active_speaker`) > fallback speaker-view-COMPOSITE
(`shared_screen_with_speaker_view`); it returns none exactly when no
stream's type tag matches any tier; the claim's concrete examples hold. -/
theorem find_best_video_amended_priority
    (recording_files : List RecordingFile) :
    find_best_video recording_files =
        selectInTierOrder amendedTierOrder recording_files ∧
    (find_best_video recording_files = none ↔
        ∀ f ∈ recording_files, matchesAnyTier f = false) ∧
    find_best_video [wSpeakerSimple, wGalleryComposite] =
        some wGalleryComposite ∧
    find_best_video [wSpeakerSimple] = some wSpeakerSimple ∧
    find_best_video [wAudioOnly] = none := by
  refine ⟨rfl, ?_, by decide, by decide, by decide⟩
  unfold find_best_video find_best_gallery_view_file
  cases h1 : recording_files.find?
      (fun f => pyLower f.recording_type == "shared_screen_with_gallery_view") with
  | some f =>
    constructor
    · intro h; exact absurd h (by simp)
    · intro hall
      exfalso
      have hf := List.find?_some h1
      have := hall f (List.mem_of_find?_eq_some h1)
      simp [matchesAnyTier, hf] at this
  | none =>
  cases h2 : recording_files.find?
      (fun f => pyLower f.recording_type == "gallery_view") with
  | some f =>
    rw [List.find?_eq_none] at h1
    constructor
    · intro h; simp [h2] at h
    · intro hall
      exfalso
      have hf := List.find?_some h2
      have := hall f (List.mem_of_find?_eq_some h2)
      simp [matchesAnyTier, hf] at this
  | none =>
  cases h3 : recording_files.find?
      (fun f => pyLower f.recording_type == "active_speaker") with
  | some f =>
    constructor
    · intro h; simp [h1, h2, h3] at h
    · intro hall
      exfalso
      have hf := List.find?_some h3
      have := hall f (List.mem_of_find?_eq_some h3)
      simp [matchesAnyTier, hf] at this
  | none =>
  cases h4 : recording_files.find?
      (fun f => pyLower f.recording_type == "shared_screen_with_speaker_view") with
  | some f =>
    constructor
    · intro h; simp [h1, h2, h3, h4] at h
    · intro hall
      exfalso
      have hf := List.find?_some h4
      have := hall f (List.mem_of_find?_eq_some h4)
      simp [matchesAnyTier, hf] at this
  | none =>
    rw [List.find?_eq_none] at h1 h2 h3 h4
    constructor
    · intro _ f hf
      simp only [matchesAnyTier]
      have e1 := h1 f hf
      have e2 := h2 f hf
      have e3 := h3 f hf
      have e4 := h4 f hf
      simp only [Bool.not_eq_true] at e1 e2 e3 e4
      simp [e1, e2, e3, e4]
    · intro _
      simp [h1, h2, h3, h4]

/-- C3: `record_error` increments `failure_count` by one, sets
`status = failed` and `error_message`, and returns "should alert" iff
the incremented count is at least the threshold AND the message differs
from the stored `last_notified_error`; with threshold 3 and a fixed
message the calls return false, false, true, false, and a fourth call
with a different message returns true. -/
theorem record_error_gate (threshold : Int) (now : String)
    (records : List Record) (zoom_uuid msg : String) :
    ((record_error threshold now records zoom_uuid msg "failed").2 =
       (decide (pyIntOr0 (match get_record records zoom_uuid with
           | some r => r.failure_count
           | none => "0") + 1 ≥ threshold) &&
        (msg != (match get_record records zoom_uuid with
           | some r => r.last_notified_error
           | none => ""))) ∧
     (∃ r', get_record
         (record_error threshold now records zoom_uuid msg "failed").1
         zoom_uuid = some r' ∧
       r'.failure_count = toString (pyIntOr0
         (match get_record records zoom_uuid with
          | some r => r.failure_count
          | none => "0") + 1) ∧
       r'.status = "failed" ∧ r'.error_message = msg)) ∧
    ((record_error 3 "now" [] "u1" "boom" "failed").2 = false ∧
     (record_error 3 "now"
       (record_error 3 "now" [] "u1" "boom" "failed").1
       "u1" "boom" "failed").2 = false ∧
     (record_error 3 "now"
       (record_error 3 "now"
         (record_error 3 "now" [] "u1" "boom" "failed").1
         "u1" "boom" "failed").1
       "u1" "boom" "failed").2 = true ∧
     (record_error 3 "now"
       (record_error 3 "now"
         (record_error 3 "now"
           (record_error 3 "now" [] "u1" "boom" "failed").1
           "u1" "boom" "failed").1
         "u1" "boom" "failed").1
       "u1" "boom" "failed").2 = false ∧
     (record_error 3 "now"
       (record_error 3 "now"
         (record_error 3 "now"
           (record_error 3 "now" [] "u1" "boom" "failed").1
           "u1" "boom" "failed").1
         "u1" "boom" "failed").1
       "u1" "crash" "failed").2 = true) := by
  refine ⟨?_, by decide⟩
  cases h : get_record records zoom_uuid with
  | some r =>
    have hbeq : (r.zoom_uuid == zoom_uuid) = true := get_record_beq h
    have hsome : (get_record records zoom_uuid).isSome := by
      rw [h]; rfl
    constructor
    · simp [record_error, h]
    · simp only [record_error, h]
      exact ⟨_, get_record_replaceFirst records zoom_uuid _ hsome hbeq,
        rfl, rfl, rfl⟩
  | none =>
    constructor
    · simp [record_error, h, emptyRecord]
    · simp only [record_error, h]
      refine ⟨_, get_record_append_of_none records zoom_uuid _ h ?_,
        rfl, rfl, rfl⟩
      simp [emptyRecord]

/-- C4: each successful step (`record_download`, `record_upload`,
`record_notification`) on an existing record clears `error_message`,
resets `failure_count` to 0, and clears `error_notified_at` and
`last_notified_error`. -/
theorem success_clears_error_state (threshold : Int) (now : String)
    (records : List Record)
    (zoom_uuid meeting_topic start_time file_path youtube_url : String)
    (r : Record) (h : get_record records zoom_uuid = some r) :
    (∃ r', get_record (record_download threshold now records zoom_uuid
        meeting_topic start_time file_path).1 zoom_uuid = some r' ∧
      r'.error_message = "" ∧ r'.failure_count = "0" ∧
      r'.error_notified_at = "" ∧ r'.last_notified_error = "") ∧
    (∃ r', get_record (record_upload threshold now records zoom_uuid
        youtube_url).1 zoom_uuid = some r' ∧
      r'.error_message = "" ∧ r'.failure_count = "0" ∧
      r'.error_notified_at = "" ∧ r'.last_notified_error = "") ∧
    (∃ r', get_record (record_notification threshold now records
        zoom_uuid).1 zoom_uuid = some r' ∧
      r'.error_message = "" ∧ r'.failure_count = "0" ∧
      r'.error_notified_at = "" ∧ r'.last_notified_error = "") := by
  have hbeq : (r.zoom_uuid == zoom_uuid) = true := get_record_beq h
  have hsome : (get_record records zoom_uuid).isSome := by
    rw [h]; rfl
  refine ⟨?_, ?_, ?_⟩
  · simp only [record_download, h]
    exact ⟨_, get_record_replaceFirst records zoom_uuid _ hsome hbeq,
      rfl, rfl, rfl, rfl⟩
  · simp only [record_upload, h]
    exact ⟨_, get_record_replaceFirst records zoom_uuid _ hsome hbeq,
      rfl, rfl, rfl, rfl⟩
  · simp only [record_notification, h]
    exact ⟨_, get_record_replaceFirst records zoom_uuid _ hsome hbeq,
      rfl, rfl, rfl, rfl⟩

/-- Witness for C4 on a failed row with populated error bookkeeping. -/
theorem success_clears_error_state_witness :
    get_record [wFailed] "u1" = some wFailed ∧
    ((∃ r', get_record (record_download 3 "t5" [wFailed] "u1" "Standup"
        "s" "p.mp4").1 "u1" = some r' ∧
      r'.error_message = "" ∧ r'.failure_count = "0" ∧
      r'.error_notified_at = "" ∧ r'.last_notified_error = "") ∧
    (∃ r', get_record (record_upload 3 "t5" [wFailed] "u1"
        "https://y/v1").1 "u1" = some r' ∧
      r'.error_message = "" ∧ r'.failure_count = "0" ∧
      r'.error_notified_at = "" ∧ r'.last_notified_error = "") ∧
    (∃ r', get_record (record_notification 3 "t5" [wFailed]
        "u1").1 "u1" = some r' ∧
      r'.error_message = "" ∧ r'.failure_count = "0" ∧
      r'.error_notified_at = "" ∧ r'.last_notified_error = "")) :=
  ⟨by decide,
   success_clears_error_state 3 "t5" [wFailed] "u1" "Standup" "s" "p.mp4"
     "https://y/v1" wFailed (by decide)⟩

/-- C5 counterexample: on an absent `item_id`, `record_upload` and
`record_notification` do NOT create a record — the ledger stays empty
and the call returns false. -/
theorem mutation_creates_record_counterexample :
    record_upload 3 "now" [] "u1" "https://y/v1" = ([], false) ∧
    record_notification 3 "now" [] "u1" = ([], false) ∧
    get_record (record_upload 3 "now" [] "u1" "https://y/v1").1 "u1" =
      none := by decide

/-- C5 amended: on an absent `item_id`, `record_download` and
`record_error` create the record keyed by that id and apply their
update, while `record_upload` and `record_notification` leave the
ledger unchanged and return false. -/
theorem mutation_absent_id (threshold : Int) (now : String)
    (records : List Record)
    (zoom_uuid meeting_topic start_time file_path youtube_url msg : String)
    (h : get_record records zoom_uuid = none) :
    (∃ r', get_record (record_download threshold now records zoom_uuid
        meeting_topic start_time file_path).1 zoom_uuid = some r' ∧
      r'.zoom_uuid = zoom_uuid ∧ r'.zoom_downloaded_at = now ∧
      r'.file_path = file_path ∧ r'.status = "downloaded") ∧
    (∃ r', get_record (record_error threshold now records zoom_uuid msg
        "failed").1 zoom_uuid = some r' ∧
      r'.zoom_uuid = zoom_uuid ∧ r'.error_message = msg ∧
      r'.failure_count = "1" ∧ r'.status = "failed") ∧
    record_upload threshold now records zoom_uuid youtube_url =
      (records, false) ∧
    record_notification threshold now records zoom_uuid =
      (records, false) := by
  refine ⟨?_, ?_, ?_, ?_⟩
  · simp only [record_download, h]
    refine ⟨_, get_record_append_of_none records zoom_uuid _ h ?_,
      rfl, rfl, rfl, rfl⟩
    simp [emptyRecord]
  · simp only [record_error, h]
    refine ⟨_, get_record_append_of_none records zoom_uuid _ h ?_,
      rfl, rfl, ?_, rfl⟩
    · simp [emptyRecord]
    · rfl
  · simp [record_upload, h]
  · simp [record_notification, h]

/-- Witness for C5's amended claim on a ledger not containing the id. -/
theorem mutation_absent_id_witness :
    get_record [wComplete] "u2" = none ∧
    ((∃ r', get_record (record_download 3 "t5" [wComplete] "u2"
        "Standup" "s" "p.mp4").1 "u2" = some r' ∧
      r'.zoom_uuid = "u2" ∧ r'.zoom_downloaded_at = "t5" ∧
      r'.file_path = "p.mp4" ∧ r'.status = "downloaded") ∧
    (∃ r', get_record (record_error 3 "t5" [wComplete] "u2" "boom"
        "failed").1 "u2" = some r' ∧
      r'.zoom_uuid = "u2" ∧ r'.error_message = "boom" ∧
      r'.failure_count = "1" ∧ r'.status = "failed") ∧
    record_upload 3 "t5" [wComplete] "u2" "https://y/v1" =
      ([wComplete], false) ∧
    record_notification 3 "t5" [wComplete] "u2" = ([wComplete], false)) :=
  ⟨by decide,
   mutation_absent_id 3 "t5" [wComplete] "u2" "Standup" "s" "p.mp4"
     "https://y/v1" "boom" (by decide)⟩

/-- The retry-sweep filesystem fixture: only `"ok.mp4"` exists. -/
def wRetryFs : String → Bool := fun p => p == "ok.mp4"

/-- C6: the Retry Sweep returns exactly the records satisfying
(status failed, or downloaded-and-not-uploaded, or
uploaded-and-not-notified) and (empty local path or the file still
exists); every selected record with a non-empty path has its file on
disk. -/
theorem get_records_for_retry_spec (fsExists : String → Bool)
    (records : List Record) :
    get_records_for_retry fsExists records =
      records.filter (retryableClaimPred fsExists) ∧
    ∀ r ∈ get_records_for_retry fsExists records,
      r.file_path ≠ "" → fsExists r.file_path = true := by
  have hfilter : get_records_for_retry fsExists records =
      records.filter (retryableClaimPred fsExists) := by
    unfold get_records_for_retry
    refine List.filter_congr (fun r _ => ?_)
    simp only [retryableClaimPred, bne]
    rcases Bool.eq_false_or_eq_true (r.status == "failed") with h1 | h1 <;>
      rcases Bool.eq_false_or_eq_true (r.zoom_downloaded_at == "") with h2 | h2 <;>
      rcases Bool.eq_false_or_eq_true (r.youtube_uploaded_at == "") with h3 | h3 <;>
      rcases Bool.eq_false_or_eq_true (r.discord_notified_at == "") with h4 | h4 <;>
      rcases Bool.eq_false_or_eq_true (r.file_path == "") with h5 | h5 <;>
      rcases Bool.eq_false_or_eq_true (fsExists r.file_path) with h6 | h6 <;>
      simp [h1, h2, h3, h4, h5, h6]
  refine ⟨hfilter, fun r hr hne => ?_⟩
  rw [hfilter] at hr
  have hp := (List.mem_filter.mp hr).2
  simp only [retryableClaimPred, Bool.and_eq_true, Bool.or_eq_true] at hp
  rcases hp.2 with h | h
  · exact absurd (by simpa using h) hne
  · exact h

/-- Witness for C6 on a four-record ledger where only `"ok.mp4"`
exists on disk. -/
theorem get_records_for_retry_spec_witness :
    get_records_for_retry wRetryFs
        [wFailed, wDownloaded, wComplete, wUploadedNoUrl] = [wFailed] ∧
    get_records_for_retry wRetryFs
        [wFailed, wDownloaded, wComplete, wUploadedNoUrl] =
      List.filter (retryableClaimPred wRetryFs)
        [wFailed, wDownloaded, wComplete, wUploadedNoUrl] :=
  ⟨by decide,
   (get_records_for_retry_spec wRetryFs
     [wFailed, wDownloaded, wComplete, wUploadedNoUrl]).1⟩

/-- Counting helper: filtering `(a == ·) || Q` from a duplicate-free
list containing `a` keeps `a` plus the `Q`-elements of the rest. -/
theorem length_filter_beq_or {Q : String → Bool} :
    ∀ {l : List String}, l.Nodup → ∀ {a : String}, a ∈ l →
    (l.filter (fun p => (a == p) || Q p)).length =
      1 + ((l.erase a).filter Q).length := by
  intro l
  induction l with
  | nil => intro _ a ha; cases ha
  | cons x xs ih =>
    intro hnd a ha
    rcases List.mem_cons.mp ha with rfl | hax
    · have hnx : a ∉ xs := (List.nodup_cons.mp hnd).1
      rw [List.erase_cons_head]
      have hcong : xs.filter (fun p => (a == p) || Q p) = xs.filter Q := by
        refine List.filter_congr (fun p hp => ?_)
        have hne : (a == p) = false :=
          beq_eq_false_iff_ne.mpr (fun h => hnx (h ▸ hp))
        rw [hne, Bool.false_or]
      simp [List.filter_cons, hcong]
      omega
    · have hxa : ¬ (x == a) = true := by
        intro h
        exact (List.nodup_cons.mp hnd).1 ((eq_of_beq h) ▸ hax)
      have hax' : (a == x) = false :=
        beq_eq_false_iff_ne.mpr (fun h => hxa (by simp [h]))
      rw [List.erase_cons_tail hxa]
      have ihx := ih (List.nodup_cons.mp hnd).2 hax
      cases hQ : Q x
      · simp only [List.filter_cons, hax', Bool.false_or, hQ]
        simp only [Bool.false_eq_true, if_false]
        omega
      · simp only [List.filter_cons, hax', Bool.false_or, hQ, if_true]
        simp only [List.length_cons]
        omega

/-- Invariant of the retention-sweep fold: starting from a
duplicate-free file list without the empty path, the fold deletes
exactly the artifacts of qualifying records, counts them, and any
directory it removes has no remaining file. -/
theorem cleanup_foldl (env : CleanupEnv) (cutoff : Int) :
    ∀ (recs : List Record) (c : Nat) (fs ds : List String),
      fs.Nodup → "" ∉ fs → ds.Nodup →
      ((recs.foldl (cleanup_record env cutoff) ⟨c, fs, ds⟩).files =
         fs.filter (fun p => !(deletedBy env cutoff recs p)) ∧
       (recs.foldl (cleanup_record env cutoff) ⟨c, fs, ds⟩).deleted_count =
         c + (fs.filter (fun p => deletedBy env cutoff recs p)).length ∧
       (recs.foldl (cleanup_record env cutoff) ⟨c, fs, ds⟩).dirs =
         ds.filter (fun d => !(dirRemovedBy env cutoff recs fs d))) := by
  intro recs
  induction recs with
  | nil =>
    intro c fs ds hnd hne hnds
    refine ⟨by simp [deletedBy], by simp [deletedBy], ?_⟩
    have hzero : (fs.any fun p => false) = false :=
      List.any_eq_false.mpr (fun x _ => by simp)
    simp [dirRemovedBy, deletedBy, hzero]
  | cons r recs ih =>
    intro c fs ds hnd hne hnds
    simp only [List.foldl_cons]
    by_cases hq : cleanupQualifies env cutoff r = true
    · -- the record qualifies for deletion
      have h1 : (r.zoom_downloaded_at == "") = false := by
        rcases Bool.eq_false_or_eq_true (r.zoom_downloaded_at == "")
          with h | h
        · exfalso
          rw [cleanupQualifies] at hq
          simp [bne, h] at hq
        · exact h
      obtain ⟨t, hp, hlt⟩ :
          ∃ t, env.parseTs r.zoom_downloaded_at = some t ∧ t < cutoff := by
        cases hp : env.parseTs r.zoom_downloaded_at with
        | none =>
          exfalso
          rw [cleanupQualifies] at hq
          simp [hp] at hq
        | some t =>
          refine ⟨t, rfl, ?_⟩
          by_contra hlt
          rw [cleanupQualifies] at hq
          simp [hp, hlt] at hq
      have hDBcons : ∀ p, deletedBy env cutoff (r :: recs) p =
          ((r.file_path == p) || deletedBy env cutoff recs p) := by
        intro p
        simp [deletedBy, List.any_cons, hq]
      by_cases hfp : (r.file_path != "") = true
      · by_cases hmemf : fs.contains r.file_path = true
        · -- the artifact exists: it is unlinked
          have hmem : r.file_path ∈ fs := by
            simpa [List.contains, List.elem_iff] using hmemf
          have hnd1 : (fs.erase r.file_path).Nodup :=
            List.Nodup.erase _ hnd
          have hne1 : "" ∉ fs.erase r.file_path :=
            fun hm => hne (List.mem_of_mem_erase hm)
          have hfilesEq :
              (fs.erase r.file_path).filter
                  (fun p => !(deletedBy env cutoff recs p)) =
                fs.filter (fun p => !(deletedBy env cutoff (r :: recs) p)) := by
            rw [List.Nodup.erase_eq_filter hnd, List.filter_filter]
            refine List.filter_congr (fun p hp' => ?_)
            by_cases hpf : p = r.file_path
            · subst hpf
              simp [hDBcons]
            · have e1 : (p == r.file_path) = false :=
                beq_eq_false_iff_ne.mpr hpf
              have e2 : (r.file_path == p) = false :=
                beq_eq_false_iff_ne.mpr (Ne.symm hpf)
              simp [hDBcons, bne, e1, e2]
          have hlen :
              (fs.filter (fun p => deletedBy env cutoff (r :: recs) p)).length =
                1 + ((fs.erase r.file_path).filter
                  (fun p => deletedBy env cutoff recs p)).length := by
            have := length_filter_beq_or
              (Q := fun p => deletedBy env cutoff recs p) hnd hmem
            rw [← this]
            refine congrArg List.length (List.filter_congr (fun p _ => ?_))
            rw [hDBcons]
          have hAnyEq : ∀ d, fs.any (fun p =>
              deletedBy env cutoff (r :: recs) p && env.parentOf p == d) =
              ((env.parentOf r.file_path == d) ||
                (fs.erase r.file_path).any (fun p =>
                  deletedBy env cutoff recs p && env.parentOf p == d)) := by
            intro d
            rw [Bool.eq_iff_iff]
            simp only [List.any_eq_true, Bool.and_eq_true, Bool.or_eq_true]
            constructor
            · rintro ⟨p, hpmem, hdb, hpar⟩
              by_cases hpf : p = r.file_path
              · subst hpf
                exact Or.inl hpar
              · refine Or.inr ⟨p, (List.mem_erase_of_ne hpf).mpr hpmem,
                  ?_, hpar⟩
                rw [hDBcons, Bool.or_eq_true] at hdb
                rcases hdb with h | h
                · exact absurd (eq_of_beq h).symm hpf
                · exact h
            · rintro (hpd | ⟨p, hp1, hdb, hpar⟩)
              · refine ⟨r.file_path, hmem, ?_, hpd⟩
                rw [hDBcons]
                simp
              · refine ⟨p, List.mem_of_mem_erase hp1, ?_, hpar⟩
                rw [hDBcons, hdb]
                simp
          by_cases hcond : (ds.contains (env.parentOf r.file_path) &&
              !((fs.erase r.file_path).any
                 (fun f => env.parentOf f == env.parentOf r.file_path))) = true
          · -- the parent directory is present and becomes empty: removed
            have hany1 : ((fs.erase r.file_path).any
                (fun f => env.parentOf f == env.parentOf r.file_path)) =
                  false := by
              have hsplit := hcond
              rw [Bool.and_eq_true] at hsplit
              have h2 := hsplit.2
              rcases Bool.eq_false_or_eq_true ((fs.erase r.file_path).any
                (fun f => env.parentOf f == env.parentOf r.file_path))
                with h | h
              · rw [h] at h2
                simp at h2
              · exact h
            have hEpd : ((fs.erase r.file_path).filter
                (fun p => !(deletedBy env cutoff recs p))).any
                  (fun f => env.parentOf f == env.parentOf r.file_path) =
                false := by
              rw [List.any_eq_false]
              intro f hf
              exact List.any_eq_false.mp hany1 f (List.mem_of_mem_filter hf)
            have hstep : cleanup_record env cutoff ⟨c, fs, ds⟩ r =
                ⟨c + 1, fs.erase r.file_path,
                  ds.erase (env.parentOf r.file_path)⟩ := by
              rw [cleanup_record]
              have hcondP : env.parentOf r.file_path ∈ ds ∧
                  ∀ x ∈ fs.erase r.file_path,
                    ¬ env.parentOf x = env.parentOf r.file_path := by
                simpa using hcond
              simp [h1, hp, hlt, hfp, hmem, hcondP]
              intro x hx hpx
              exact absurd hpx (hcondP.2 x hx)
            rw [hstep]
            obtain ⟨ih1, ih2, ih3⟩ := ih (c + 1) (fs.erase r.file_path)
              (ds.erase (env.parentOf r.file_path)) hnd1 hne1
              (List.Nodup.erase _ hnds)
            refine ⟨?_, ?_, ?_⟩
            · rw [ih1, hfilesEq]
            · rw [ih2, hlen]
              omega
            · rw [ih3, List.Nodup.erase_eq_filter hnds, List.filter_filter]
              refine List.filter_congr (fun d hd => ?_)
              unfold dirRemovedBy
              rw [hAnyEq d, ← hfilesEq]
              by_cases hdp : d = env.parentOf r.file_path
              · subst hdp
                simp [hEpd]
              · have e1 : (env.parentOf r.file_path == d) = false :=
                  beq_eq_false_iff_ne.mpr (Ne.symm hdp)
                have e2 : (d != env.parentOf r.file_path) = true := by
                  simp [bne, beq_eq_false_iff_ne.mpr hdp]
                simp [e1, e2]
          · -- the parent directory stays (absent, or still non-empty)
            have hstep : cleanup_record env cutoff ⟨c, fs, ds⟩ r =
                ⟨c + 1, fs.erase r.file_path, ds⟩ := by
              rw [cleanup_record]
              have hcondP : ¬ (env.parentOf r.file_path ∈ ds ∧
                  ∀ x ∈ fs.erase r.file_path,
                    ¬ env.parentOf x = env.parentOf r.file_path) := by
                simpa using hcond
              simp [h1, hp, hlt, hfp, hmem, hcondP]
            rw [hstep]
            obtain ⟨ih1, ih2, ih3⟩ := ih (c + 1) (fs.erase r.file_path) ds
              hnd1 hne1 hnds
            refine ⟨?_, ?_, ?_⟩
            · rw [ih1, hfilesEq]
            · rw [ih2, hlen]
              omega
            · rw [ih3]
              refine List.filter_congr (fun d hd => ?_)
              unfold dirRemovedBy
              rw [hAnyEq d, ← hfilesEq]
              by_cases hdp : d = env.parentOf r.file_path
              · subst hdp
                have hcont : ds.contains (env.parentOf r.file_path) = true := by
                  simpa [List.contains, List.elem_iff] using hd
                have hany1 : ((fs.erase r.file_path).any
                    (fun f => env.parentOf f ==
                      env.parentOf r.file_path)) = true := by
                  rcases Bool.eq_false_or_eq_true ((fs.erase r.file_path).any
                      (fun f => env.parentOf f == env.parentOf r.file_path))
                    with h | h
                  · exact h
                  · exact absurd (by rw [hcont, h]; rfl) hcond
                rcases Bool.eq_false_or_eq_true (((fs.erase r.file_path).filter
                    (fun p => !(deletedBy env cutoff recs p))).any
                      (fun f => env.parentOf f == env.parentOf r.file_path))
                  with hE | hE
                · simp [hE]
                · have hA : ((fs.erase r.file_path).any
                      (fun p => deletedBy env cutoff recs p &&
                        (env.parentOf p == env.parentOf r.file_path))) =
                      true := by
                    rcases List.any_eq_true.mp hany1 with ⟨p, hp1, hppd⟩
                    have hdbp : deletedBy env cutoff recs p = true := by
                      rcases Bool.eq_false_or_eq_true
                          (deletedBy env cutoff recs p) with h | h
                      · exact h
                      · exfalso
                        have hpF : p ∈ (fs.erase r.file_path).filter
                            (fun q => !(deletedBy env cutoff recs q)) :=
                          List.mem_filter.mpr ⟨hp1, by rw [h]; rfl⟩
                        exact (List.any_eq_false.mp hE p hpF) hppd
                    exact List.any_eq_true.mpr ⟨p, hp1, by rw [hdbp, hppd]; rfl⟩
                  simp [hE, hA]
              · have e1 : (env.parentOf r.file_path == d) = false :=
                  beq_eq_false_iff_ne.mpr (Ne.symm hdp)
                simp [e1]
        · -- the artifact is already gone: nothing happens
          have hmemout : r.file_path ∉ fs := by
            simpa [List.contains, List.elem_iff] using hmemf
          have hstep : cleanup_record env cutoff ⟨c, fs, ds⟩ r =
              ⟨c, fs, ds⟩ := by
            rw [cleanup_record]
            simp [h1, hp, hlt, hfp, hmemout]
          rw [hstep]
          have hDBmem : ∀ p ∈ fs, deletedBy env cutoff (r :: recs) p =
              deletedBy env cutoff recs p := by
            intro p hpmem
            rw [hDBcons]
            have : (r.file_path == p) = false :=
              beq_eq_false_iff_ne.mpr (fun h => hmemout (h ▸ hpmem))
            rw [this, Bool.false_or]
          obtain ⟨ih1, ih2, ih3⟩ := ih c fs ds hnd hne hnds
          refine ⟨?_, ?_, ?_⟩
          · rw [ih1]
            exact (List.filter_congr (fun p hpmem => by
              rw [hDBmem p hpmem])).symm
          · rw [ih2]
            congr 1
            exact congrArg List.length
              (List.filter_congr (fun p hpmem => (hDBmem p hpmem).symm))
          · rw [ih3]
            refine List.filter_congr (fun d _ => ?_)
            have hrem : dirRemovedBy env cutoff (r :: recs) fs d =
                dirRemovedBy env cutoff recs fs d := by
              unfold dirRemovedBy
              rw [any_congr_mem (fun p hpm => by rw [hDBmem p hpm]),
                List.filter_congr (fun p hpm => by rw [hDBmem p hpm])]
            rw [hrem]
      · -- empty file path: nothing happens
        have hfpf : (r.file_path != "") = false := by
          rcases Bool.eq_false_or_eq_true (r.file_path != "") with h | h
          · exact absurd h hfp
          · exact h
        have hfpe : r.file_path = "" := by
          rcases Bool.eq_false_or_eq_true (r.file_path == "") with h | h
          · simpa using h
          · exfalso
            rw [bne, h] at hfpf
            simp at hfpf
        have hstep : cleanup_record env cutoff ⟨c, fs, ds⟩ r =
            ⟨c, fs, ds⟩ := by
          rw [cleanup_record]
          simp [h1, hp, hlt, hfpf]
        rw [hstep]
        have hDBmem : ∀ p ∈ fs, deletedBy env cutoff (r :: recs) p =
            deletedBy env cutoff recs p := by
          intro p hpmem
          rw [hDBcons]
          have he : (r.file_path == p) = false := by
            rw [beq_eq_false_iff_ne]
            intro h
            rw [← h, hfpe] at hpmem
            exact hne hpmem
          rw [he, Bool.false_or]
        obtain ⟨ih1, ih2, ih3⟩ := ih c fs ds hnd hne hnds
        refine ⟨?_, ?_, ?_⟩
        · rw [ih1]
          exact (List.filter_congr (fun p hpmem => by
            rw [hDBmem p hpmem])).symm
        · rw [ih2]
          congr 1
          exact congrArg List.length
            (List.filter_congr (fun p hpmem => (hDBmem p hpmem).symm))
        · rw [ih3]
          refine List.filter_congr (fun d _ => ?_)
          have hrem : dirRemovedBy env cutoff (r :: recs) fs d =
              dirRemovedBy env cutoff recs fs d := by
            unfold dirRemovedBy
            rw [any_congr_mem (fun p hpm => by rw [hDBmem p hpm]),
              List.filter_congr (fun p hpm => by rw [hDBmem p hpm])]
          rw [hrem]
    · -- the record does not qualify: nothing happens
      have hqf : cleanupQualifies env cutoff r = false := by
        rcases Bool.eq_false_or_eq_true (cleanupQualifies env cutoff r)
          with h | h
        · exact absurd h hq
        · exact h
      have hstep : cleanup_record env cutoff ⟨c, fs, ds⟩ r =
          ⟨c, fs, ds⟩ := by
        rw [cleanup_record]
        rcases Bool.eq_false_or_eq_true (r.zoom_downloaded_at == "")
          with h1 | h1
        · simp [h1]
        · cases hp : env.parseTs r.zoom_downloaded_at with
          | none => simp [h1, hp]
          | some t =>
            have hnlt : ¬ t < cutoff := by
              intro hlt
              rw [cleanupQualifies] at hqf
              simp [bne, h1, hp, hlt] at hqf
            simp [h1, hp, hnlt]
      rw [hstep]
      have hDB : ∀ p, deletedBy env cutoff (r :: recs) p =
          deletedBy env cutoff recs p := by
        intro p
        simp [deletedBy, List.any_cons, hqf]
      obtain ⟨ih1, ih2, ih3⟩ := ih c fs ds hnd hne hnds
      refine ⟨?_, ?_, ?_⟩
      · rw [ih1]
        exact (List.filter_congr (fun p _ => by rw [hDB p])).symm
      · rw [ih2]
        congr 1
        exact congrArg List.length (List.filter_congr (fun p _ => (hDB p).symm))
      · rw [ih3]
        refine List.filter_congr (fun d _ => ?_)
        have hrem : dirRemovedBy env cutoff (r :: recs) fs d =
            dirRemovedBy env cutoff recs fs d := by
          unfold dirRemovedBy
          rw [any_congr_mem (fun p _ => by rw [hDB p]),
            List.filter_congr (fun p _ => by rw [hDB p])]
        rw [hrem]

/-- C7: the Retention Sweep deletes the artifacts of exactly the records
whose `downloaded_at` is non-empty and older than the cutoff, returns
the number of artifacts deleted, removes exactly the directories in
which an artifact was deleted and no file remains, and modifies no
ledger field. -/
theorem cleanup_old_videos_spec (env : CleanupEnv) (retention_days : Int)
    (records : List Record) (files dirs : List String)
    (hnd : files.Nodup) (hne : "" ∉ files) (hnds : dirs.Nodup) :
    (cleanup_old_videos env retention_days records files dirs).1.files =
      files.filter (fun p => !(deletedBy env
        (env.now - retention_days * 86400) records p)) ∧
    (cleanup_old_videos env retention_days records files
        dirs).1.deleted_count =
      (files.filter (fun p => deletedBy env
        (env.now - retention_days * 86400) records p)).length ∧
    (cleanup_old_videos env retention_days records files dirs).2 =
      records ∧
    (cleanup_old_videos env retention_days records files dirs).1.dirs =
      dirs.filter (fun d => !(dirRemovedBy env
        (env.now - retention_days * 86400) records files d)) := by
  obtain ⟨h1, h2, h3⟩ := cleanup_foldl env
    (env.now - retention_days * 86400) records 0 files dirs hnd hne hnds
  exact ⟨h1, by simpa using h2, rfl, h3⟩

/-- Witness for C7: with retention 10 days, the artifact downloaded 11
days ago is deleted (count 1) and its directory `"D11"`, left empty, is
removed; the artifact downloaded 9 days ago and its directory `"D9"`
are untouched; the ledger rows come back unchanged. -/
theorem cleanup_old_videos_spec_witness :
    ([("f11" : String), "f9"].Nodup ∧
     ("" : String) ∉ [("f11" : String), "f9"] ∧
     [("D11" : String), "D9"].Nodup) ∧
    ((cleanup_old_videos wCleanupEnv 10 [wOld11, wNew9]
        ["f11", "f9"] ["D11", "D9"]).1.files =
      List.filter (fun p => !(deletedBy wCleanupEnv
        (wCleanupEnv.now - 10 * 86400) [wOld11, wNew9] p)) ["f11", "f9"] ∧
    (cleanup_old_videos wCleanupEnv 10 [wOld11, wNew9]
        ["f11", "f9"] ["D11", "D9"]).1.deleted_count =
      (List.filter (fun p => deletedBy wCleanupEnv
        (wCleanupEnv.now - 10 * 86400) [wOld11, wNew9] p)
        ["f11", "f9"]).length ∧
    (cleanup_old_videos wCleanupEnv 10 [wOld11, wNew9]
        ["f11", "f9"] ["D11", "D9"]).2 = [wOld11, wNew9] ∧
    (cleanup_old_videos wCleanupEnv 10 [wOld11, wNew9]
        ["f11", "f9"] ["D11", "D9"]).1.dirs =
      List.filter (fun d => !(dirRemovedBy wCleanupEnv
        (wCleanupEnv.now - 10 * 86400) [wOld11, wNew9]
        ["f11", "f9"] d)) ["D11", "D9"]) ∧
    (cleanup_old_videos wCleanupEnv 10 [wOld11, wNew9]
        ["f11", "f9"] ["D11", "D9"]).1.files = ["f9"] ∧
    (cleanup_old_videos wCleanupEnv 10 [wOld11, wNew9]
        ["f11", "f9"] ["D11", "D9"]).1.deleted_count = 1 ∧
    (cleanup_old_videos wCleanupEnv 10 [wOld11, wNew9]
        ["f11", "f9"] ["D11", "D9"]).1.dirs = ["D9"] :=
  ⟨⟨by decide, by decide, by decide⟩,
   cleanup_old_videos_spec wCleanupEnv 10 [wOld11, wNew9]
     ["f11", "f9"] ["D11", "D9"] (by decide) (by decide) (by decide),
   by decide, by decide, by decide⟩

/-- C8: the duration is metadata minutes times 60 when positive, else
the difference of the stream's parsed end/start timestamps, else 0; and
when a positive minimum is configured and the duration is below it, the
processor records a distinct "Video too short: Ns" error and stops
before any download, upload or notification. -/
theorem duration_gate_spec (env : Env) (recording : Recording)
    (records : List Record) (vf best : RecordingFile)
    (huuid : recording.uuid ≠ "")
    (hproc : is_processed records recording.uuid = false)
    (hne : recording.recording_files ≠ [])
    (hbest : find_best_video recording.recording_files = some best)
    (hmin : env.min_video_length > 0)
    (hdur : get_recording_duration_seconds recording (some best) <
      env.min_video_length) :
    (recording.duration > 0 →
      get_recording_duration_seconds recording (some vf) =
        recording.duration * 60) ∧
    (¬ recording.duration > 0 →
      ∀ s e, vf.recording_start = some s → vf.recording_end = some e →
        get_recording_duration_seconds recording (some vf) = e - s) ∧
    (¬ recording.duration > 0 →
      (vf.recording_start = none ∨ vf.recording_end = none) →
        get_recording_duration_seconds recording (some vf) = 0) ∧
    process_recording env recording records false =
      ((if (record_error env.threshold env.now records recording.uuid
          ("Video too short: " ++
            toString (get_recording_duration_seconds recording (some best)) ++
            "s") "failed").2
        then [Event.alertError ("Video too short: " ++
          toString (get_recording_duration_seconds recording (some best)) ++
          "s")]
        else []),
       (record_error env.threshold env.now records recording.uuid
          ("Video too short: " ++
            toString (get_recording_duration_seconds recording (some best)) ++
            "s") "failed").1) ∧
    ∀ ev ∈ (process_recording env recording records false).1,
      ev.isCollaborator = false := by
  have huuidb : (recording.uuid == "") = false := by simpa using huuid
  have hempty : recording.recording_files.isEmpty = false := by
    cases hc : recording.recording_files with
    | nil => exact absurd hc hne
    | cons a l => rfl
  have hgateb : (get_recording_duration_seconds recording (some best) <
      env.min_video_length) := hdur
  have hmain : process_recording env recording records false =
      ((if (record_error env.threshold env.now records recording.uuid
          ("Video too short: " ++
            toString (get_recording_duration_seconds recording (some best)) ++
            "s") "failed").2
        then [Event.alertError ("Video too short: " ++
          toString (get_recording_duration_seconds recording (some best)) ++
          "s")]
        else []),
       (record_error env.threshold env.now records recording.uuid
          ("Video too short: " ++
            toString (get_recording_duration_seconds recording (some best)) ++
            "s") "failed").1) := by
    unfold process_recording
    simp only [huuidb, Bool.false_eq_true, if_false, hproc, hempty, hbest]
    simp [hmin, hdur]
  refine ⟨?_, ?_, ?_, hmain, ?_⟩
  · intro hpos
    unfold get_recording_duration_seconds
    rw [if_pos hpos]
  · intro hnpos s e hs he
    unfold get_recording_duration_seconds
    rw [if_neg hnpos]
    dsimp only
    rw [hs, he]
  · intro hnpos hmiss
    unfold get_recording_duration_seconds
    rw [if_neg hnpos]
    dsimp only
    rcases hmiss with hm | hm
    · rw [hm]
    · rw [hm]
      cases vf.recording_start <;> rfl
  · intro ev hev
    rw [hmain] at hev
    rcases Bool.eq_false_or_eq_true (record_error env.threshold env.now
        records recording.uuid ("Video too short: " ++
          toString (get_recording_duration_seconds recording (some best)) ++
          "s") "failed").2 with h | h <;>
      rw [h] at hev <;> simp at hev
    · rw [hev]
      rfl

/-- Witness for C8: a 30-second recording (via stream timestamps)
against a 60-second minimum is gated. -/
theorem duration_gate_spec_witness :
    (wShortRecording.uuid ≠ "" ∧
     is_processed [] wShortRecording.uuid = false ∧
     wShortRecording.recording_files ≠ [] ∧
     find_best_video wShortRecording.recording_files =
       some wShortStream ∧
     wEnv.min_video_length > 0 ∧
     get_recording_duration_seconds wShortRecording
       (some wShortStream) < wEnv.min_video_length) ∧
    ((wShortRecording.duration > 0 →
      get_recording_duration_seconds wShortRecording (some wStream) =
        wShortRecording.duration * 60) ∧
    (¬ wShortRecording.duration > 0 →
      ∀ s e, wStream.recording_start = some s →
        wStream.recording_end = some e →
        get_recording_duration_seconds wShortRecording (some wStream) =
          e - s) ∧
    (¬ wShortRecording.duration > 0 →
      (wStream.recording_start = none ∨ wStream.recording_end = none) →
        get_recording_duration_seconds wShortRecording (some wStream) = 0) ∧
    process_recording wEnv wShortRecording [] false =
      ((if (record_error wEnv.threshold wEnv.now [] wShortRecording.uuid
          ("Video too short: " ++
            toString (get_recording_duration_seconds wShortRecording
              (some wShortStream)) ++
            "s") "failed").2
        then [Event.alertError ("Video too short: " ++
          toString (get_recording_duration_seconds wShortRecording
            (some wShortStream)) ++ "s")]
        else []),
       (record_error wEnv.threshold wEnv.now [] wShortRecording.uuid
          ("Video too short: " ++
            toString (get_recording_duration_seconds wShortRecording
              (some wShortStream)) ++
            "s") "failed").1) ∧
    ∀ ev ∈ (process_recording wEnv wShortRecording [] false).1,
      ev.isCollaborator = false) :=
  ⟨⟨by decide, by decide, by decide, by decide, by decide, by decide⟩,
   duration_gate_spec wEnv wShortRecording [] wStream
     wShortStream
     (by decide) (by decide) (by decide) (by decide) (by decide)
     (by decide)⟩

/-- C9: a record with `downloaded_at` set, `uploaded_at` unset and the
local artifact on disk is processed by invoking only the Uploader and
then the Notifier, in that order, and never the Downloader. -/
theorem resume_skips_download (env : Env) (recording : Recording)
    (records : List Record) (r : Record) (best : RecordingFile)
    (url : String)
    (huuid : recording.uuid ≠ "")
    (hfind : get_record records recording.uuid = some r)
    (hdl : r.zoom_downloaded_at ≠ "")
    (hul : r.youtube_uploaded_at = "")
    (hnot : r.discord_notified_at = "")
    (hne : recording.recording_files ≠ [])
    (hbest : find_best_video recording.recording_files = some best)
    (hgate : ¬ (env.min_video_length > 0 ∧
      get_recording_duration_seconds recording (some best) <
        env.min_video_length))
    (hfs : env.fsExists (recording_file_path env best) = true)
    (hup : env.uploadResult = Except.ok url)
    (hurl : url ≠ "") :
    (process_recording env recording records false).1.filter
        Event.isCollaborator =
      [Event.upload (recording_file_path env best), Event.notify url] ∧
    ∀ p, Event.download p ∉ (process_recording env recording records
      false).1 := by
  have huuidb : (recording.uuid == "") = false := by simpa using huuid
  have hproc : is_processed records recording.uuid = false := by
    unfold is_processed
    unfold get_record at hfind
    rw [hfind]
    simp [hul]
  have hempty : recording.recording_files.isEmpty = false := by
    cases hc : recording.recording_files with
    | nil => exact absurd hc hne
    | cons a l => rfl
  have hdlb : (r.zoom_downloaded_at == "") = false :=
    beq_eq_false_iff_ne.mpr hdl
  have hulb : (r.youtube_uploaded_at == "") = true := by simp [hul]
  have hurlb : (url == "") = false := beq_eq_false_iff_ne.mpr hurl
  have hDL : download_step env best (some r) recording.uuid recording.topic
      recording.start_time (recording_file_path env best) records false =
      ([], records, false, env.fsExists) := by
    unfold download_step
    simp [hdlb, hfs]
  have hUpEq : record_upload env.threshold env.now records recording.uuid
      url = (replaceFirst records recording.uuid
        (upload_success_row r env.now url),
       hadFailures env.threshold r.failure_count) := by
    unfold record_upload upload_success_row
    rw [hfind]
  have hUL : upload_step env (some r) recording.uuid
      (recording_file_path env best) env.fsExists records false =
      ([Event.upload (recording_file_path env best)] ++
         (if hadFailures env.threshold r.failure_count
          then [Event.alertResolved "Upload"] else []),
       replaceFirst records recording.uuid
         (upload_success_row r env.now url),
       false) := by
    unfold upload_step
    rw [hup]
    simp [hulb, hfs, hUpEq]
  have hsomeRec : (get_record records recording.uuid).isSome := by
    rw [hfind]
    rfl
  have hbeq0 : (r.zoom_uuid == recording.uuid) = true := get_record_beq hfind
  have hbeq2 : ((upload_success_row r env.now url).zoom_uuid ==
      recording.uuid) = true := hbeq0
  have hgr : get_record (replaceFirst records recording.uuid
      (upload_success_row r env.now url))
      recording.uuid = some
      (upload_success_row r env.now url) :=
    get_record_replaceFirst records recording.uuid _ hsomeRec hbeq2
  have hNT : (notify_step env recording.uuid
      (replaceFirst records recording.uuid
        (upload_success_row r env.now url))
      false).1.filter Event.isCollaborator = [Event.notify url] := by
    unfold notify_step
    rw [hgr]
    cases henv : env.notifyResult with
    | ok b =>
      cases b <;>
        simp [upload_success_row, hnot, hurl, hurlb, Event.isCollaborator,
          apply_ite (List.filter Event.isCollaborator)]
    | error e =>
      simp [upload_success_row, hnot, hurl, hurlb, Event.isCollaborator,
        apply_ite (List.filter Event.isCollaborator)]
  have hmainTrace : (process_recording env recording records
      false).1.filter Event.isCollaborator =
      [Event.upload (recording_file_path env best), Event.notify url] := by
    unfold process_recording
    simp only [huuidb, Bool.false_eq_true, if_false, hproc, hempty, hbest,
      hfind]
    simp only [hDL, hUL]
    simp [hgate, List.filter_append, hNT, Event.isCollaborator,
      apply_ite (List.filter Event.isCollaborator)]
  refine ⟨hmainTrace, ?_⟩
  intro p hmem
  have hmf : Event.download p ∈ (process_recording env recording records
      false).1.filter Event.isCollaborator :=
    List.mem_filter.mpr ⟨hmem, rfl⟩
  rw [hmainTrace] at hmf
  simp at hmf

/-- Witness for C9 on a downloaded-but-not-uploaded row whose artifact
is on disk. -/
theorem resume_skips_download_witness :
    (wRecording.uuid ≠ "" ∧
     get_record [wDownloaded] wRecording.uuid = some wDownloaded ∧
     wDownloaded.zoom_downloaded_at ≠ "" ∧
     wDownloaded.youtube_uploaded_at = "" ∧
     wDownloaded.discord_notified_at = "" ∧
     wEnv.fsExists (recording_file_path wEnv wStream) = true ∧
     wEnv.uploadResult = Except.ok "https://y/v1") ∧
    ((process_recording wEnv wRecording [wDownloaded] false).1.filter
        Event.isCollaborator =
      [Event.upload (recording_file_path wEnv wStream),
       Event.notify "https://y/v1"] ∧
    ∀ p, Event.download p ∉ (process_recording wEnv wRecording
      [wDownloaded] false).1) :=
  ⟨⟨by decide, by decide, by decide, by decide, by decide, by decide,
    rfl⟩,
   resume_skips_download wEnv wRecording [wDownloaded] wDownloaded wStream
     "https://y/v1" (by decide) (by decide) (by decide) (by decide)
     (by decide) (by decide) (by decide) (by decide) (by decide)
     rfl (by decide)⟩

/-- C10: at the notify step, a record with an empty `youtube_url` and
`notified_at` unset makes the processor return without invoking the
Notifier and without any ledger mutation: the ledger comes back exactly
as it was and no event is emitted. -/
theorem notify_no_url_noop (env : Env) (recording : Recording)
    (records : List Record) (r : Record) (best : RecordingFile)
    (huuid : recording.uuid ≠ "")
    (hfind : get_record records recording.uuid = some r)
    (hdl : r.zoom_downloaded_at ≠ "")
    (hul : r.youtube_uploaded_at ≠ "")
    (hnot : r.discord_notified_at = "")
    (hurl : r.youtube_url = "")
    (hne : recording.recording_files ≠ [])
    (hbest : find_best_video recording.recording_files = some best)
    (hgate : ¬ (env.min_video_length > 0 ∧
      get_recording_duration_seconds recording (some best) <
        env.min_video_length))
    (hfs : env.fsExists (recording_file_path env best) = true) :
    process_recording env recording records false = ([], records) := by
  have huuidb : (recording.uuid == "") = false := by simpa using huuid
  have hproc : is_processed records recording.uuid = false := by
    unfold is_processed
    unfold get_record at hfind
    rw [hfind]
    simp [hnot]
  have hempty : recording.recording_files.isEmpty = false := by
    cases hc : recording.recording_files with
    | nil => exact absurd hc hne
    | cons a l => rfl
  have hdlb : (r.zoom_downloaded_at == "") = false :=
    beq_eq_false_iff_ne.mpr hdl
  have hulb : (r.youtube_uploaded_at == "") = false :=
    beq_eq_false_iff_ne.mpr hul
  have hDL : download_step env best (some r) recording.uuid recording.topic
      recording.start_time (recording_file_path env best) records false =
      ([], records, false, env.fsExists) := by
    unfold download_step
    simp [hdlb, hfs]
  have hUL : upload_step env (some r) recording.uuid
      (recording_file_path env best) env.fsExists records false =
      ([], records, false) := by
    unfold upload_step
    simp [hulb]
  have hNT : notify_step env recording.uuid records false =
      ([], records) := by
    unfold notify_step
    simp [hfind, hnot, hurl]
  unfold process_recording
  simp only [huuidb, Bool.false_eq_true, if_false, hproc, hempty, hbest,
    hfind]
  simp only [hDL, hUL]
  simp [hgate, hNT]

/-- Witness for C10 on an uploaded row with an empty URL. -/
theorem notify_no_url_noop_witness :
    (wRecording.uuid ≠ "" ∧
     get_record [wUploadedNoUrl] wRecording.uuid = some wUploadedNoUrl ∧
     wUploadedNoUrl.zoom_downloaded_at ≠ "" ∧
     wUploadedNoUrl.youtube_uploaded_at ≠ "" ∧
     wUploadedNoUrl.discord_notified_at = "" ∧
     wUploadedNoUrl.youtube_url = "") ∧
    process_recording wEnv wRecording [wUploadedNoUrl] false =
      ([], [wUploadedNoUrl]) :=
  ⟨⟨by decide, by decide, by decide, by decide, by decide, by decide⟩,
   notify_no_url_noop wEnv wRecording [wUploadedNoUrl] wUploadedNoUrl
     wStream (by decide) (by decide) (by decide) (by decide) (by decide)
     (by decide) (by decide) (by decide) (by decide) (by decide)⟩

end ZoomToYouTube
